import Mathlib

/-!  A verification development for the SepiaWrapper repository: a thin Python
convenience layer over the vendor-supplied control library for PicoQuant
Sepia PDL 828 laser drivers.  The wrapper's observable behaviour (device
enumeration, session open/close with safety soft-lock, laser and oscillator
parameter setters with unit conversion and validation) is embedded shallowly
below.  The Python package sources themselves are not part of the checked
tree (only the README files and the example notebook are), so the operations
are modelled from the repository's specification and the documented example
transcript; each such definition carries a `Modelled from the spec:` note.
Every wrapper operation records the list of native-library calls it issues,
so that claims of the form "no native call is made" are statable. -/

namespace SepiaWrapper

/-- Vendor module types discovered in backplane slots.  Only SLM/Prima laser
modules and SOM/SOMD oscillator modules are supported by the wrapper. -/
inductive ModuleType
  | SOM
  | SOMD
  | SLM
  | Prima
  | other
  deriving DecidableEq

/-- Error taxonomy of the wrapper (spec section 7). -/
inductive WrapperError
  | nativeLibrary
  | deviceOpen (index : ℕ) (status : ℤ)
  | nativeStatus (code : ℤ)
  | invalidParameter
  | invalidChannel
  | unsupportedModule
  deriving DecidableEq

/-- The native entry points of the vendor library reached by the wrapper
(spec section 6).  Operations below record which of these they issue. -/
inductive NativeCall
  | getDeviceInfo (index : ℕ)
  | openDevice (index : ℕ)
  | closeDevice
  | getModuleMap
  | getLaserParams (slot : ℕ)
  | setLaserParams (slot : ℕ)
  | getOscParams (slot : ℕ)
  | setOscParams (slot : ℕ)
  deriving DecidableEq

/-- Modelled from the spec: the observable firmware side of the native
boundary.  The firmware is documented to soft-lock (disable) the laser
output upon disconnect, i.e. upon the native close call; a parameter write
to a laser module may (re-)enable output. -/
structure FirmwareState where
  laserOutputEnabled : Bool
  deriving DecidableEq

/-- One native call as seen by the firmware: close soft-locks the laser
output; a laser parameter write may enable it; other calls leave it. -/
def applyCall (fw : FirmwareState) (c : NativeCall) : FirmwareState :=
  match c with
  | NativeCall.closeDevice => { fw with laserOutputEnabled := false }
  | NativeCall.setLaserParams _ => { fw with laserOutputEnabled := true }
  | _ => fw

/-- Firmware effect of a whole trace of native calls, in order. -/
def applyTrace (fw : FirmwareState) (calls : List NativeCall) : FirmwareState :=
  calls.foldl applyCall fw

/-- Descriptor of an attached device, produced by enumeration. -/
structure DeviceDescriptor where
  model_name : String
  serial_number : String
  deriving DecidableEq

/-- Modelled from the spec: the bus as the native layer reports it.  Entry
`j` of the list is the reply to "get device info at index i + j"; a `none`
entry means "no device at this index"; past the end of the list every index
reports "no device".  `enum_devices bus i` queries indices i, i+1, ... and
stops at the first index reporting no device. -/
def enum_devices : List (Option DeviceDescriptor) → ℕ →
    List (ℕ × DeviceDescriptor) × List NativeCall
  | [], i => ([], [NativeCall.getDeviceInfo i])
  | none :: _, i => ([], [NativeCall.getDeviceInfo i])
  | some d :: rest, i =>
    let r := enum_devices rest (i + 1)
    ((i, d) :: r.1, NativeCall.getDeviceInfo i :: r.2)

/-- Modelled from the spec: `list_devices` repeatedly calls the native
"get device info at index i" for i = 0, 1, 2, ... until the native layer
reports "no device at this index", and returns the mapping found so far. -/
def list_devices (bus : List (Option DeviceDescriptor)) :
    List (ℕ × DeviceDescriptor) × List NativeCall :=
  enum_devices bus 0

/-- Length of the maximal leading run of populated bus entries: the number
of devices `list_devices` discovers before it stops. -/
def some_prefix_len : List (Option DeviceDescriptor) → ℕ
  | [] => 0
  | none :: _ => 0
  | some _ :: rest => some_prefix_len rest + 1

/-- Per-channel oscillator configuration.  A channel is either delayed (its
`combines` field is `none`) or acts as a combiner of source channels; the
mutual exclusion is maintained by the setters, which clear the other side. -/
structure ChannelConfig where
  delay_steps : ℤ
  amplitude_au : ℤ
  combines : Option (List ℕ)
  masked : Bool
  deriving DecidableEq

/-- Mirror state of one SLM/Prima laser module. -/
structure LaserModule where
  slot_id : ℕ
  module_type : ModuleType
  trigger_raw : ℕ
  pulsed : Bool
  head_type : String
  intensity_percent : ℚ
  deriving DecidableEq

/-- Mirror state of one SOM/SOMD oscillator module. -/
structure OscillatorModule where
  slot_id : ℕ
  module_type : ModuleType
  trigger_raw : ℕ
  divider : ℤ
  presync : ℕ
  mask_sync : ℕ
  burst_array : List ℤ
  output_enabled : List ℕ
  sync_enabled : List ℕ
  sync_mask_inverted : Bool
  sequencer_enabled : Bool
  sequencer_mode : ℕ
  channels : Fin 8 → ChannelConfig

/-- One open connection to a device: the native handle, one laser-module
object per populated SLM/Prima slot, at most one oscillator object, and the
open/closed flag. -/
structure DeviceSession where
  handle : ℕ
  lasers : List LaserModule
  oscillator : Option OscillatorModule
  is_open : Bool

/-- The fixed oscillator base clock of the device, in MHz. -/
def base_clock_mhz : ℚ := 80

/-- Modelled from the spec: the largest divider in the supported range; the
spec fixes only that the range is bounded, not the bound itself. -/
def max_divider : ℤ := 255

/-- Modelled from the spec: the nearest integer divider for a requested
frequency, i.e. the integer nearest to base clock / request. -/
def clock_divider (frequency_mhz : ℚ) : ℤ :=
  round (base_clock_mhz / frequency_mhz)

/-- The clock frequency the oscillator actually produces: base clock divided
by the integer divider. -/
def clock_frequency_mhz (osc : OscillatorModule) : ℚ :=
  base_clock_mhz / osc.divider

/-- Modelled from the spec: `set_clock_internal` computes the nearest integer
divider for the requested frequency and applies it, failing with
`invalidParameter` when that divider is outside the supported range (so that
no in-range divider approximates the request within tolerance). -/
def set_clock_internal (osc : OscillatorModule) (frequency_mhz : ℚ) :
    Except WrapperError OscillatorModule × List NativeCall :=
  let d := clock_divider frequency_mhz
  if 1 ≤ d ∧ d ≤ max_divider then
    (Except.ok { osc with divider := d }, [NativeCall.setOscParams osc.slot_id])
  else
    (Except.error WrapperError.invalidParameter, [])

/-- State update performed by a successful `set_delay`: the channel becomes a
delayed channel, clearing any combiner relation previously set on it. -/
def set_delay_state (osc : OscillatorModule) (ch : Fin 8)
    (delay_steps amplitude_au : ℤ) : OscillatorModule :=
  { osc with channels :=
      Function.update osc.channels ch ⟨delay_steps, amplitude_au, none, false⟩ }

/-- Modelled from the spec: `set_delay` validates only the channel index
(failing with `invalidChannel` outside [0,7], before any native call) and
otherwise records the signed delay steps and amplitude for the channel. -/
def set_delay (osc : OscillatorModule) (channel_index : ℕ)
    (delay_steps amplitude_au : ℤ) :
    Except WrapperError OscillatorModule × List NativeCall :=
  if h : channel_index < 8 then
    (Except.ok (set_delay_state osc ⟨channel_index, h⟩ delay_steps amplitude_au),
      [NativeCall.setOscParams osc.slot_id])
  else
    (Except.error WrapperError.invalidChannel, [])

/-- State update performed by a successful `set_combiner`: the channel
becomes a combiner of the source channels, clearing any delay and amplitude
previously set on it. -/
def set_combiner_state (osc : OscillatorModule) (ch : Fin 8)
    (source_channels : List ℕ) (masked : Bool) : OscillatorModule :=
  { osc with channels :=
      Function.update osc.channels ch ⟨0, 0, some source_channels, masked⟩ }

/-- Modelled from the spec: `set_combiner` validates the channel index and
marks the channel as a combiner of the given sources. -/
def set_combiner (osc : OscillatorModule) (channel_index : ℕ)
    (source_channels : List ℕ) (masked : Bool) :
    Except WrapperError OscillatorModule × List NativeCall :=
  if h : channel_index < 8 then
    (Except.ok (set_combiner_state osc ⟨channel_index, h⟩ source_channels masked),
      [NativeCall.setOscParams osc.slot_id])
  else
    (Except.error WrapperError.invalidChannel, [])

/-- Modelled from the spec: `set_output` replaces the enabled-channel set
wholesale. -/
def set_output (osc : OscillatorModule) (channels : List ℕ) :
    Except WrapperError OscillatorModule × List NativeCall :=
  (Except.ok { osc with output_enabled := channels },
    [NativeCall.setOscParams osc.slot_id])

/-- Modelled from the spec: `set_sequencer` selects free-running versus
externally gated sequencing. -/
def set_sequencer (osc : OscillatorModule) (enabled : Bool) (mode_code : ℕ) :
    Except WrapperError OscillatorModule × List NativeCall :=
  (Except.ok { osc with sequencer_enabled := enabled, sequencer_mode := mode_code },
    [NativeCall.setOscParams osc.slot_id])

/-- Modelled from the spec: `set_intensity` is a thin validated setter with
range [0,100]; outside the range it fails with `invalidParameter` and issues
no native call, so the invalid request never reaches the device. -/
def set_intensity (lm : LaserModule) (percent : ℚ) :
    Except WrapperError LaserModule × List NativeCall :=
  if percent < 0 ∨ 100 < percent then
    (Except.error WrapperError.invalidParameter, [])
  else
    (Except.ok { lm with intensity_percent := percent },
      [NativeCall.setLaserParams lm.slot_id])

/-- Modelled from the spec: `set_pulse_parameters` validates the trigger mode
code against the supported set and writes trigger mode and pulse flag. -/
def set_pulse_parameters (lm : LaserModule) (trigger_mode_code : ℕ)
    (pulse_flag : Bool) :
    Except WrapperError LaserModule × List NativeCall :=
  if trigger_mode_code < 8 then
    (Except.ok { lm with trigger_raw := trigger_mode_code, pulsed := pulse_flag },
      [NativeCall.setLaserParams lm.slot_id])
  else
    (Except.error WrapperError.invalidParameter, [])

/-- Modelled from the spec: the physical delay of a channel in nanoseconds,
its signed step count times the hardware-reported delay step `step_ns`. -/
def channel_delay_ns (step_ns : ℚ) (c : ChannelConfig) : ℚ :=
  (c.delay_steps : ℚ) * step_ns

/-- Modelled from the spec: the step count nearest to a requested delay, for
hardware delay step `step_ns`. -/
def delay_steps_for (step_ns delay_ns : ℚ) : ℤ :=
  round (delay_ns / step_ns)

/-- Modelled from the spec: the internal-trigger mode code selected by
`start_laser_simple`. -/
def internal_trigger_code : ℕ := 0

/-- Modelled from the spec: `start_laser_simple` is a convenience composite.
It computes the nearest achievable oscillator divider for the requested
repetition rate and applies it to the owning oscillator, sets the laser's
intensity and its trigger mode to the internal-frequency mode, and applies
the requested delay (quantised to the hardware delay step `step_ns`) through
the oscillator's channel-delay setting for the laser's mapped channel.  It
returns the actually achieved (delay, frequency) pair, not an echo of the
request. -/
def start_laser_simple (s : DeviceSession) (laser_index : ℕ)
    (repetition_rate_mhz intensity_percent delay_ns step_ns : ℚ) :
    Except WrapperError (DeviceSession × ℚ × ℚ) × List NativeCall :=
  match s.oscillator with
  | none => (Except.error WrapperError.unsupportedModule, [])
  | some osc =>
    match s.lasers.get? laser_index with
    | none => (Except.error WrapperError.invalidParameter, [])
    | some lm =>
      match set_clock_internal osc repetition_rate_mhz with
      | (Except.error e, tr) => (Except.error e, tr)
      | (Except.ok osc1, tr1) =>
        match set_intensity lm intensity_percent with
        | (Except.error e, tr2) => (Except.error e, tr1 ++ tr2)
        | (Except.ok lm1, tr2) =>
          match set_pulse_parameters lm1 internal_trigger_code true with
          | (Except.error e, tr3) => (Except.error e, tr1 ++ tr2 ++ tr3)
          | (Except.ok lm2, tr3) =>
            match set_delay osc1 laser_index (delay_steps_for step_ns delay_ns) 0 with
            | (Except.error e, tr4) => (Except.error e, tr1 ++ tr2 ++ tr3 ++ tr4)
            | (Except.ok osc2, tr4) =>
              (Except.ok
                ({ s with
                    oscillator := some osc2,
                    lasers := s.lasers.set laser_index lm2 },
                  ((delay_steps_for step_ns delay_ns : ℚ) * step_ns,
                    clock_frequency_mhz osc2)),
                tr1 ++ tr2 ++ tr3 ++ tr4)

/-- All channels undelayed with zero amplitude, as on a fresh mirror. -/
def init_channels : Fin 8 → ChannelConfig :=
  fun _ => ⟨0, 0, none, false⟩

/-- Modelled from the spec: the laser-module mirror constructed at session
open for a populated SLM/Prima slot, initialised from the documented example
device. -/
def init_laser (slot : ℕ) (mt : ModuleType) : LaserModule :=
  ⟨slot, mt, 0, false, "LASER", 0⟩

/-- Modelled from the spec: the oscillator-module mirror constructed at
session open for a populated SOM/SOMD slot, initialised from the documented
example device (divider 4, single burst on channel 0). -/
def init_osc (slot : ℕ) (mt : ModuleType) : OscillatorModule :=
  ⟨slot, mt, 0, 4, 0, 0, [1, 0, 0, 0, 0, 0, 0, 0], [0], [0], false, false, 0,
    init_channels⟩

/-- Modelled from the spec: session construction walks the module map the
device reports (in ascending slot order) and constructs exactly one
LaserModule per SLM/Prima slot and one OscillatorModule per SOM/SOMD slot
(the first oscillator slot wins); unsupported slots are skipped. -/
def build_modules : List (ℕ × ModuleType) →
    List LaserModule × Option OscillatorModule
  | [] => ([], none)
  | (slot, mt) :: rest =>
    let r := build_modules rest
    match mt with
    | ModuleType.SLM => (init_laser slot mt :: r.1, r.2)
    | ModuleType.Prima => (init_laser slot mt :: r.1, r.2)
    | ModuleType.SOM => (r.1, some (init_osc slot mt))
    | ModuleType.SOMD => (r.1, some (init_osc slot mt))
    | ModuleType.other => r

/-- Modelled from the spec: opening a session issues the native open call,
queries the module map once, and builds the sub-objects from it; they are
never rebuilt afterwards. -/
def open_session (index : ℕ) (module_map : List (ℕ × ModuleType)) :
    DeviceSession × List NativeCall :=
  (⟨index, (build_modules module_map).1, (build_modules module_map).2, true⟩,
    [NativeCall.openDevice index, NativeCall.getModuleMap])

/-- Modelled from the spec: `close` is idempotent.  On an open session it
issues the native close call and marks the session closed; on an
already-closed session it is a no-op that performs no native call. -/
def close (s : DeviceSession) : DeviceSession × List NativeCall :=
  if s.is_open then
    ({ s with is_open := false }, [NativeCall.closeDevice])
  else
    (s, [])

/-- Modelled from the spec: when a session is abandoned without an explicit
close, the finalizer runs and calls `close`, so the native close call is
still issued and the firmware soft-locks the laser output. -/
def finalize_abandoned (s : DeviceSession) : DeviceSession × List NativeCall :=
  close s

/-- Printable name of a module type. -/
def ModuleType.name : ModuleType → String
  | ModuleType.SOM => "SOM"
  | ModuleType.SOMD => "SOMD"
  | ModuleType.SLM => "SLM"
  | ModuleType.Prima => "Prima"
  | ModuleType.other => "unsupported"

/-- Modelled from the spec: mapping of raw trigger codes to named trigger
modes, as in the documented example transcript. -/
def trigger_mode_name : ℕ → String
  | 0 => "80 MHz (int.)"
  | 1 => "40 MHz (int.)"
  | 2 => "20 MHz (int.)"
  | 3 => "10 MHz (int.)"
  | 4 => "5 MHz (int.)"
  | 5 => "2.5 MHz (int.)"
  | 6 => "rising edge (ext.)"
  | 7 => "falling edge (ext.)"
  | _ => "unknown"

/-- One printed line per status field: the field name followed by the
rendered field value. -/
def status_lines {α : Type} (fields : List (String × (α → String))) (a : α) :
    List String :=
  fields.map (fun p => p.1 ++ " " ++ p.2 a)

/-- The status fields of a laser module, in the order they are printed. -/
def laser_status_fields : List (String × (LaserModule → String)) :=
  [("module_type", fun m => m.module_type.name),
    ("slot_id", fun m => toString m.slot_id),
    ("trigger", fun m => toString m.trigger_raw),
    ("pulsed", fun m => toString m.pulsed),
    ("head_type", fun m => m.head_type),
    ("trigger_mode", fun m => trigger_mode_name m.trigger_raw),
    ("intensity", fun m => toString m.intensity_percent)]

/-- The packed status block the native "get laser parameters" call returns,
before the wrapper decodes it (intensity is reported in tenths of a
percent). -/
structure RawLaserStatus where
  trigger : ℕ
  pulsed : Bool
  intensity_tenths : ℕ
  deriving DecidableEq

/-- Decode of a raw laser status block into the mirror fields. -/
def refresh_laser (lm : LaserModule) (raw : RawLaserStatus) : LaserModule :=
  { lm with
    trigger_raw := raw.trigger,
    pulsed := raw.pulsed,
    intensity_percent := (raw.intensity_tenths : ℚ) / 10 }

/-- Modelled from the spec: `LaserModule.get_current_status` issues the
native "get laser parameters" call for its slot, decodes the packed block,
mutates the held mirror to the refreshed snapshot, returns it, and prints
one human-readable line per status field. -/
def get_current_status_laser (lm : LaserModule) (raw : RawLaserStatus) :
    (LaserModule × List String) × List NativeCall :=
  let refreshed := refresh_laser lm raw
  ((refreshed, status_lines laser_status_fields refreshed),
    [NativeCall.getLaserParams lm.slot_id])

/-- The scalar status fields of an oscillator module, in print order. -/
def osc_status_fields : List (String × (OscillatorModule → String)) :=
  [("module_type", fun o => o.module_type.name),
    ("slot_id", fun o => toString o.slot_id),
    ("trigger_mode", fun o => trigger_mode_name o.trigger_raw),
    ("divider", fun o => toString o.divider),
    ("clock frequency", fun o => toString (clock_frequency_mhz o)),
    ("presync", fun o => toString o.presync),
    ("mask_sync", fun o => toString o.mask_sync),
    ("burst_array", fun o => toString o.burst_array),
    ("output_enabled", fun o => toString o.output_enabled),
    ("sync_enabled", fun o => toString o.sync_enabled),
    ("sync_mask_inverted", fun o => toString o.sync_mask_inverted),
    ("sequencer", fun o =>
      if o.sequencer_enabled then "running on AUX IN high" else "free running"),
    ("sequencer_AuxOut", fun o => toString o.sequencer_enabled)]

/-- The per-channel status line: a delayed channel prints its delay and
amplitude, a combiner channel prints its sources and mask flag. -/
def channel_line (step_ns : ℚ) (i : ℕ) (c : ChannelConfig) : String :=
  "Channel_" ++ toString i ++ " " ++
    (match c.combines with
     | none =>
       "delayed " ++ toString (channel_delay_ns step_ns c) ++ " ns and " ++
         toString c.amplitude_au ++ " a.u."
     | some srcs =>
       "undelayed, combining " ++ toString srcs ++ ", Masked: " ++
         toString c.masked)

/-- All status lines of an oscillator module: one line per scalar field
followed by one line per channel. -/
def osc_status_lines (step_ns : ℚ) (o : OscillatorModule) : List String :=
  status_lines osc_status_fields o ++
    List.ofFn (fun i : Fin 8 => channel_line step_ns i.val (o.channels i))

/-- Modelled from the spec: `OscillatorModule.get_current_status` issues the
single native "get oscillator parameters" call for its slot, unpacks the
block into the structured mirror (which in this embedding already matches
the hardware ground truth), returns the snapshot and prints one
human-readable line per status field and per channel. -/
def get_current_status_osc (osc : OscillatorModule) (step_ns : ℚ) :
    (OscillatorModule × List String) × List NativeCall :=
  ((osc, osc_status_lines step_ns osc), [NativeCall.getOscParams osc.slot_id])

/-- The laser module of the documented example device: an SLM in slot 200. -/
def ex_laser : LaserModule :=
  ⟨200, ModuleType.SLM, 7, true, "LASER", 803 / 10⟩

/-- The oscillator module of the documented example device: a SOMD in
slot 100. -/
def ex_osc : OscillatorModule :=
  init_osc 100 ModuleType.SOMD

/-- An open session over the documented example device. -/
def ex_session : DeviceSession :=
  ⟨0, [ex_laser], some ex_osc, true⟩

/-- The module map of the documented example device: a SOMD oscillator in
the first slot and SLM lasers in the next two. -/
def ex_module_map : List (ℕ × ModuleType) :=
  [(100, ModuleType.SOMD), (200, ModuleType.SLM), (300, ModuleType.SLM)]

/-- The frequency in the (delay, frequency) pair returned by a successful
`start_laser_simple`, if it succeeded. -/
def returned_frequency
    (r : Except WrapperError (DeviceSession × ℚ × ℚ) × List NativeCall) :
    Option ℚ :=
  match r.1 with
  | Except.ok x => some x.2.2
  | Except.error _ => none

/-- C7: `close` is idempotent: for every session, calling `close` a second
time (on the already-closed session) is a no-op that performs no native
call and changes nothing; since `close` is total, it raises no error. -/
theorem close_idempotent (s : DeviceSession) :
    (close (close s).1).2 = [] ∧ (close (close s).1).1 = (close s).1 := by
  by_cases h : s.is_open <;> simp [close, h]

/-- C1: on an open session, `close` issues exactly the native close call,
after which the firmware has soft-locked (disabled) the laser output,
whatever state it was in; and a session abandoned without an explicit close
runs the finalizer, which performs the same close, so the output is safely
disabled on that path as well. -/
theorem close_soft_locks_output (s : DeviceSession) (h : s.is_open = true) :
    (close s).2 = [NativeCall.closeDevice]
    ∧ (∀ fw : FirmwareState,
        (applyTrace fw (close s).2).laserOutputEnabled = false)
    ∧ finalize_abandoned s = close s
    ∧ (∀ fw : FirmwareState,
        (applyTrace fw (finalize_abandoned s).2).laserOutputEnabled = false) := by
  refine ⟨?_, ?_, rfl, ?_⟩ <;>
    simp [close, finalize_abandoned, h, applyTrace, applyCall]

theorem close_soft_locks_output_witness :
    (close ⟨0, [], none, true⟩).2 = [NativeCall.closeDevice]
    ∧ (applyTrace ⟨true⟩ (close ⟨0, [], none, true⟩).2).laserOutputEnabled =
        false := by
  have h := close_soft_locks_output ⟨0, [], none, true⟩ rfl
  exact ⟨h.1, h.2.1 ⟨true⟩⟩

/-- C4: for every intensity outside [0,100], `set_intensity` fails with
`invalidParameter` and issues no native call, so the invalid request never
reaches the device. -/
theorem set_intensity_out_of_range_rejected (lm : LaserModule) (percent : ℚ)
    (h : percent < 0 ∨ 100 < percent) :
    set_intensity lm percent = (Except.error WrapperError.invalidParameter, []) := by
  simp only [set_intensity]
  rw [if_pos h]

theorem set_intensity_out_of_range_rejected_witness :
    ((150 : ℚ) < 0 ∨ 100 < (150 : ℚ))
    ∧ set_intensity ex_laser 150 =
        (Except.error WrapperError.invalidParameter, []) :=
  ⟨Or.inr (by norm_num),
    set_intensity_out_of_range_rejected ex_laser 150 (Or.inr (by norm_num))⟩

/-- C3: for every channel index in [0,7], a channel's delay/amplitude
setting and its combiner setting are mutually exclusive: `set_delay`
succeeds and clears any combiner relation on the channel, and a subsequent
`set_combiner` on the same channel succeeds and clears the channel's delay
and amplitude fields (leaving them 0 with the combiner sources set). -/
theorem set_delay_set_combiner_exclusive (osc : OscillatorModule)
    (channel_index : ℕ) (h : channel_index < 8) (steps amp : ℤ)
    (sources : List ℕ) :
    set_delay osc channel_index steps amp =
      (Except.ok (set_delay_state osc ⟨channel_index, h⟩ steps amp),
        [NativeCall.setOscParams osc.slot_id])
    ∧ ((set_delay_state osc ⟨channel_index, h⟩ steps amp).channels
        ⟨channel_index, h⟩).combines = none
    ∧ set_combiner (set_delay_state osc ⟨channel_index, h⟩ steps amp)
        channel_index sources false =
      (Except.ok (set_combiner_state
          (set_delay_state osc ⟨channel_index, h⟩ steps amp)
          ⟨channel_index, h⟩ sources false),
        [NativeCall.setOscParams osc.slot_id])
    ∧ (set_combiner_state (set_delay_state osc ⟨channel_index, h⟩ steps amp)
        ⟨channel_index, h⟩ sources false).channels ⟨channel_index, h⟩ =
      ⟨0, 0, some sources, false⟩ := by
  refine ⟨?_, ?_, ?_, ?_⟩
  · simp only [set_delay]
    rw [dif_pos h]
  · simp [set_delay_state]
  · simp only [set_combiner]
    rw [dif_pos h]
    simp [set_delay_state]
  · simp [set_combiner_state]

theorem set_delay_set_combiner_exclusive_witness :
    ((set_delay_state ex_osc 2 (-3) 8).channels 2).combines = none
    ∧ (set_combiner_state (set_delay_state ex_osc 2 (-3) 8) 2 [1, 5]
        false).channels 2 = ⟨0, 0, some [1, 5], false⟩ := by
  have h := set_delay_set_combiner_exclusive ex_osc 2 (by norm_num) (-3) 8 [1, 5]
  exact ⟨h.2.1, h.2.2.2⟩

/-- C9: `set_delay` accepts negative delay steps: its validation rejects
only out-of-range channel indices, so for every in-range channel and
negative step count the call succeeds, and the status afterwards reports
the corresponding negative channel delay (step count times the positive
hardware delay step) together with the given amplitude. -/
theorem set_delay_accepts_negative (osc : OscillatorModule)
    (channel_index : ℕ) (h : channel_index < 8) (steps amp : ℤ)
    (hneg : steps < 0) (step_ns : ℚ) (hstep : 0 < step_ns) :
    set_delay osc channel_index steps amp =
      (Except.ok (set_delay_state osc ⟨channel_index, h⟩ steps amp),
        [NativeCall.setOscParams osc.slot_id])
    ∧ channel_delay_ns step_ns
        ((set_delay_state osc ⟨channel_index, h⟩ steps amp).channels
          ⟨channel_index, h⟩) = (steps : ℚ) * step_ns
    ∧ channel_delay_ns step_ns
        ((set_delay_state osc ⟨channel_index, h⟩ steps amp).channels
          ⟨channel_index, h⟩) < 0
    ∧ ((set_delay_state osc ⟨channel_index, h⟩ steps amp).channels
        ⟨channel_index, h⟩).amplitude_au = amp := by
  have hv : channel_delay_ns step_ns
      ((set_delay_state osc ⟨channel_index, h⟩ steps amp).channels
        ⟨channel_index, h⟩) = (steps : ℚ) * step_ns := by
    simp [set_delay_state, channel_delay_ns]
  refine ⟨?_, hv, ?_, ?_⟩
  · simp only [set_delay]
    rw [dif_pos h]
  · rw [hv]
    exact mul_neg_of_neg_of_pos (by exact_mod_cast hneg) hstep
  · simp [set_delay_state]

theorem set_delay_accepts_negative_witness :
    set_delay ex_osc 0 (-3) 8 =
      (Except.ok (set_delay_state ex_osc 0 (-3) 8),
        [NativeCall.setOscParams 100])
    ∧ channel_delay_ns (347 / 300)
        ((set_delay_state ex_osc 0 (-3) 8).channels 0) = -347 / 100
    ∧ ((set_delay_state ex_osc 0 (-3) 8).channels 0).amplitude_au = 8 := by
  have h := set_delay_accepts_negative ex_osc 0 (by norm_num) (-3) 8
    (by norm_num) (347 / 300) (by norm_num)
  exact ⟨h.1, h.2.1.trans (by norm_num), h.2.2.2⟩

/-- C5: `set_clock_internal` computes the nearest integer divider of the
fixed base clock: the request 80/3 (26.666...) yields divider 3, a
subsequent `get_current_status` reports divider 3 and clock frequency 80/3
(about 26.6667 MHz), and whenever the nearest divider lies outside the
supported range the call fails with `invalidParameter`. -/
theorem set_clock_internal_round_trip (osc : OscillatorModule) (f : ℚ)
    (hbad : ¬(1 ≤ clock_divider f ∧ clock_divider f ≤ max_divider)) :
    clock_divider (80 / 3) = 3
    ∧ set_clock_internal osc (80 / 3) =
        (Except.ok { osc with divider := 3 },
          [NativeCall.setOscParams osc.slot_id])
    ∧ (get_current_status_osc { osc with divider := 3 } 1).1.1.divider = 3
    ∧ clock_frequency_mhz { osc with divider := 3 } = 80 / 3
    ∧ set_clock_internal osc f =
        (Except.error WrapperError.invalidParameter, []) := by
  have hd : clock_divider ((80 : ℚ) / 3) = 3 := by
    norm_num [clock_divider, base_clock_mhz, round_eq]
  refine ⟨hd, ?_, rfl, ?_, ?_⟩
  · simp only [set_clock_internal, hd]
    norm_num [max_divider]
  · norm_num [clock_frequency_mhz, base_clock_mhz]
  · simp only [set_clock_internal]
    rw [if_neg hbad]

theorem set_clock_internal_round_trip_witness :
    set_clock_internal ex_osc (80 / 3) =
      (Except.ok { ex_osc with divider := 3 }, [NativeCall.setOscParams 100])
    ∧ clock_frequency_mhz { ex_osc with divider := 3 } = 80 / 3
    ∧ set_clock_internal ex_osc 200 =
        (Except.error WrapperError.invalidParameter, []) := by
  have h := set_clock_internal_round_trip ex_osc 200
    (by norm_num [clock_divider, base_clock_mhz, round_eq, max_divider])
  exact ⟨h.2.1, h.2.2.2.1, h.2.2.2.2⟩

/-- C6: opening a session on the example device (first slot SOMD, next two
slots SLM) populates the oscillator (slot 100) and yields exactly two laser
modules in ascending slot order (200, 300); and modules are never
recreated: `close` leaves the module objects untouched, and the setters
only rewrite parameter fields of the existing module, preserving its slot
and type. -/
theorem session_modules_construction :
    (open_session 0 ex_module_map).1.oscillator =
      some (init_osc 100 ModuleType.SOMD)
    ∧ (open_session 0 ex_module_map).1.lasers.length = 2
    ∧ (open_session 0 ex_module_map).1.lasers.map LaserModule.slot_id =
        [200, 300]
    ∧ (open_session 0 ex_module_map).1.oscillator.map OscillatorModule.slot_id =
        some 100
    ∧ (open_session 0 ex_module_map).1.lasers =
        [init_laser 200 ModuleType.SLM, init_laser 300 ModuleType.SLM]
    ∧ (∀ s : DeviceSession,
        ((close s).1).lasers = s.lasers ∧ ((close s).1).oscillator = s.oscillator)
    ∧ (∀ (osc : OscillatorModule) (f : ℚ),
        (set_clock_internal osc f).1 = Except.error WrapperError.invalidParameter
        ∨ (set_clock_internal osc f).1 =
            Except.ok { osc with divider := clock_divider f })
    ∧ (∀ (osc : OscillatorModule) (ch : Fin 8) (st am : ℤ),
        (set_delay_state osc ch st am).slot_id = osc.slot_id
        ∧ (set_delay_state osc ch st am).module_type = osc.module_type)
    ∧ (∀ (lm : LaserModule) (p : ℚ),
        (set_intensity lm p).1 = Except.error WrapperError.invalidParameter
        ∨ (set_intensity lm p).1 = Except.ok { lm with intensity_percent := p }) := by
  refine ⟨rfl, rfl, rfl, rfl, rfl, ?_, ?_, ?_, ?_⟩
  · intro s
    by_cases h : s.is_open <;> simp [close, h]
  · intro osc f
    by_cases h : 1 ≤ clock_divider f ∧ clock_divider f ≤ max_divider
    · right
      simp only [set_clock_internal]
      rw [if_pos h]
    · left
      simp only [set_clock_internal]
      rw [if_neg h]
  · intro osc ch st am
    exact ⟨rfl, rfl⟩
  · intro lm p
    by_cases h : p < 0 ∨ 100 < p
    · left
      simp only [set_intensity]
      rw [if_pos h]
    · right
      simp only [set_intensity]
      rw [if_neg h]

/-- C10: `get_current_status` on a laser module issues the native read,
refreshes and returns the held mirror, and emits one human-readable line
per status field (module_type, slot_id, trigger, pulsed, head_type,
trigger_mode, intensity); on an oscillator module it likewise emits one
line per scalar status field (divider, clock frequency, burst_array, ...)
followed by one line per channel. -/
theorem get_current_status_emits_lines (lm : LaserModule)
    (raw : RawLaserStatus) (osc : OscillatorModule) (step_ns : ℚ) :
    (get_current_status_laser lm raw).1.1 = refresh_laser lm raw
    ∧ (get_current_status_laser lm raw).1.2 =
        ["module_type " ++ lm.module_type.name,
          "slot_id " ++ toString lm.slot_id,
          "trigger " ++ toString raw.trigger,
          "pulsed " ++ toString raw.pulsed,
          "head_type " ++ lm.head_type,
          "trigger_mode " ++ trigger_mode_name raw.trigger,
          "intensity " ++ toString ((raw.intensity_tenths : ℚ) / 10)]
    ∧ (get_current_status_laser lm raw).1.2.length = laser_status_fields.length
    ∧ (get_current_status_laser lm raw).2 = [NativeCall.getLaserParams lm.slot_id]
    ∧ (get_current_status_osc osc step_ns).1.1 = osc
    ∧ (get_current_status_osc osc step_ns).1.2 =
        status_lines osc_status_fields osc ++
          List.ofFn (fun i : Fin 8 => channel_line step_ns i.val (osc.channels i))
    ∧ (get_current_status_osc osc step_ns).1.2.length =
        osc_status_fields.length + 8
    ∧ (get_current_status_osc osc step_ns).2 =
        [NativeCall.getOscParams osc.slot_id] := by
  refine ⟨rfl, ?_, rfl, rfl, rfl, rfl, ?_, rfl⟩
  · simp [get_current_status_laser, status_lines, laser_status_fields,
      refresh_laser]
  · simp [get_current_status_osc, osc_status_lines, status_lines]

/-- Indices queried and results gathered by the enumeration loop, starting
from an arbitrary index: it queries one index per leading populated entry
plus the first unpopulated one, and collects exactly the leading
descriptors. -/
theorem enum_devices_spec (bus : List (Option DeviceDescriptor)) (i : ℕ) :
    (enum_devices bus i).2 =
      (List.range' i (some_prefix_len bus + 1)).map NativeCall.getDeviceInfo
    ∧ (enum_devices bus i).1.map Prod.fst = List.range' i (some_prefix_len bus)
    ∧ (enum_devices bus i).1.map Prod.snd =
        (bus.take (some_prefix_len bus)).reduceOption := by
  induction bus generalizing i with
  | nil => exact ⟨rfl, rfl, rfl⟩
  | cons hd rest ih =>
    cases hd with
    | none => exact ⟨rfl, rfl, rfl⟩
    | some d =>
      obtain ⟨h1, h2, h3⟩ := ih (i + 1)
      refine ⟨?_, ?_, ?_⟩ <;>
        simp [enum_devices, some_prefix_len, List.range', h1, h2, h3]

/-- C8: `list_devices` queries the native layer at indices 0, 1, 2, ... and
stops at the first index reporting no device: the native calls are exactly
the device-info queries up to and including that first miss, the returned
mapping holds exactly the descriptors found below it (keys 0, 1, ..., with
no gap-filling), no other native call — in particular no open of a device
handle — is made, and over an empty bus the result is the empty mapping,
not an error (`list_devices` is total, so no error is possible). -/
theorem list_devices_enumeration (bus : List (Option DeviceDescriptor)) :
    (list_devices bus).2 =
      (List.range (some_prefix_len bus + 1)).map NativeCall.getDeviceInfo
    ∧ (list_devices bus).1.map Prod.fst = List.range (some_prefix_len bus)
    ∧ (list_devices bus).1.map Prod.snd =
        (bus.take (some_prefix_len bus)).reduceOption
    ∧ (∀ c ∈ (list_devices bus).2, ∃ j, c = NativeCall.getDeviceInfo j)
    ∧ list_devices [] = ([], [NativeCall.getDeviceInfo 0]) := by
  obtain ⟨h1, h2, h3⟩ := enum_devices_spec bus 0
  refine ⟨?_, ?_, h3, ?_, rfl⟩
  · rw [List.range_eq_range']
    exact h1
  · rw [List.range_eq_range']
    exact h2
  · intro c hc
    rw [show (list_devices bus).2 = (enum_devices bus 0).2 from rfl, h1] at hc
    obtain ⟨j, _, rfl⟩ := List.mem_map.mp hc
    exact ⟨j, rfl⟩

/-- C2 (amended): `start_laser_simple` returns an achieved frequency of
base clock / divider where the divider is the integer nearest to
base clock / request (not always the frequency-closest divider); for a
request of 20 MHz the divider is 4 and the achieved frequency is exactly
20.0 MHz; and the returned (delay, frequency) pair is what was actually
set — the delay quantised to the hardware delay step and written to the
laser's channel, the frequency derived from the divider written to the
oscillator — not an echo of the request. -/
theorem start_laser_simple_nearest_divider (s : DeviceSession)
    (laser_index : ℕ) (rate intensity delay_ns step_ns : ℚ)
    (osc : OscillatorModule) (hosc : s.oscillator = some osc)
    (lm : LaserModule) (hlm : s.lasers.get? laser_index = some lm)
    (hdiv : 1 ≤ clock_divider rate ∧ clock_divider rate ≤ max_divider)
    (hint : ¬(intensity < 0 ∨ 100 < intensity)) (hch : laser_index < 8) :
    start_laser_simple s laser_index rate intensity delay_ns step_ns =
      (Except.ok
        ({ s with
            oscillator := some (set_delay_state
              { osc with divider := clock_divider rate }
              ⟨laser_index, hch⟩ (delay_steps_for step_ns delay_ns) 0),
            lasers := s.lasers.set laser_index
              { lm with
                  trigger_raw := internal_trigger_code,
                  pulsed := true,
                  intensity_percent := intensity } },
          ((delay_steps_for step_ns delay_ns : ℚ) * step_ns,
            base_clock_mhz / (clock_divider rate : ℚ))),
        [NativeCall.setOscParams osc.slot_id,
          NativeCall.setLaserParams lm.slot_id,
          NativeCall.setLaserParams lm.slot_id,
          NativeCall.setOscParams osc.slot_id])
    ∧ clock_divider 20 = 4
    ∧ base_clock_mhz / ((clock_divider 20 : ℤ) : ℚ) = 20 := by
  have h20 : clock_divider 20 = 4 := by
    norm_num [clock_divider, base_clock_mhz, round_eq]
  have h1 : set_clock_internal osc rate =
      (Except.ok { osc with divider := clock_divider rate },
        [NativeCall.setOscParams osc.slot_id]) := by
    simp only [set_clock_internal]
    rw [if_pos hdiv]
  have h2 : set_intensity lm intensity =
      (Except.ok { lm with intensity_percent := intensity },
        [NativeCall.setLaserParams lm.slot_id]) := by
    simp only [set_intensity]
    rw [if_neg hint]
  have h3 : set_pulse_parameters { lm with intensity_percent := intensity }
      internal_trigger_code true =
      (Except.ok
        { lm with
            trigger_raw := internal_trigger_code,
            pulsed := true,
            intensity_percent := intensity },
        [NativeCall.setLaserParams lm.slot_id]) := by
    simp [set_pulse_parameters, internal_trigger_code]
  have h4 : set_delay { osc with divider := clock_divider rate } laser_index
      (delay_steps_for step_ns delay_ns) 0 =
      (Except.ok (set_delay_state { osc with divider := clock_divider rate }
          ⟨laser_index, hch⟩ (delay_steps_for step_ns delay_ns) 0),
        [NativeCall.setOscParams osc.slot_id]) := by
    simp only [set_delay]
    rw [dif_pos hch]
  have hlm2 : s.lasers[laser_index]? = some lm := by
    rw [← List.get?_eq_getElem?]
    exact hlm
  refine ⟨?_, h20, by rw [h20]; norm_num [base_clock_mhz]⟩
  simp [start_laser_simple, hosc, hlm, hlm2, h1, h2, h3, h4,
    clock_frequency_mhz, set_delay_state]

theorem start_laser_simple_nearest_divider_witness :
    (start_laser_simple ex_session 0 20 (803 / 10) (41 / 5) 1).2 =
      [NativeCall.setOscParams 100, NativeCall.setLaserParams 200,
        NativeCall.setLaserParams 200, NativeCall.setOscParams 100]
    ∧ clock_divider 20 = 4
    ∧ base_clock_mhz / ((clock_divider 20 : ℤ) : ℚ) = 20 := by
  have h := start_laser_simple_nearest_divider ex_session 0 20 (803 / 10)
    (41 / 5) 1 ex_osc rfl ex_laser rfl
    (by norm_num [clock_divider, base_clock_mhz, round_eq, max_divider])
    (by norm_num) (by norm_num)
  exact ⟨by rw [h.1]; rfl, h.2.1, h.2.2⟩

/-- C2 counterexample: the claim that the achieved frequency always equals
the closest frequency reachable as base clock / integer divider is false.
For the concrete request 1600/49 MHz (about 32.65 MHz) on the example
session, `start_laser_simple` returns 40 MHz (divider 2, the integer
nearest to 80/(1600/49) = 2.45), yet the reachable frequency 80/3 (divider
3) is strictly closer to the request. -/
theorem start_laser_simple_not_freq_closest :
    returned_frequency
      (start_laser_simple ex_session 0 (1600 / 49) 50 0 1) = some 40
    ∧ base_clock_mhz / ((3 : ℤ) : ℚ) = 80 / 3
    ∧ |((80 : ℚ) / 3) - 1600 / 49| < |(40 : ℚ) - 1600 / 49| := by
  have hd : clock_divider ((1600 : ℚ) / 49) = 2 := by
    norm_num [clock_divider, base_clock_mhz, round_eq]
  have h1 : set_clock_internal ex_osc (1600 / 49) =
      (Except.ok { ex_osc with divider := 2 },
        [NativeCall.setOscParams 100]) := by
    simp only [set_clock_internal, hd]
    norm_num [max_divider]
    rfl
  have h2 : set_intensity ex_laser 50 =
      (Except.ok { ex_laser with intensity_percent := 50 },
        [NativeCall.setLaserParams 200]) := by
    simp only [set_intensity]
    norm_num
    rfl
  have h3 : set_pulse_parameters { ex_laser with intensity_percent := 50 }
      internal_trigger_code true =
      (Except.ok
        { ex_laser with
            trigger_raw := internal_trigger_code,
            pulsed := true,
            intensity_percent := 50 },
        [NativeCall.setLaserParams 200]) := by
    simp [set_pulse_parameters, internal_trigger_code]
    rfl
  have h4 : set_delay { ex_osc with divider := 2 } 0
      (delay_steps_for 1 0) 0 =
      (Except.ok (set_delay_state { ex_osc with divider := 2 }
          ⟨0, by norm_num⟩ (delay_steps_for 1 0) 0),
        [NativeCall.setOscParams 100]) := by
    simp only [set_delay]
    rw [dif_pos (by norm_num : (0 : ℕ) < 8)]
    rfl
  refine ⟨?_, by norm_num [base_clock_mhz], ?_⟩
  · norm_num [returned_frequency, start_laser_simple, ex_session, h1, h2, h3,
      h4, clock_frequency_mhz, base_clock_mhz, set_delay_state]
  · have e1 : |((80 : ℚ) / 3) - 1600 / 49| = 880 / 147 := by
      rw [abs_of_neg (by norm_num)]
      norm_num
    have e2 : |(40 : ℚ) - 1600 / 49| = 360 / 49 := by
      rw [abs_of_pos (by norm_num)]
      norm_num
    rw [e1, e2]
    norm_num

end SepiaWrapper
